import Mathlib

/-
Shallow embedding of the upload function app:
  src/src/functions/fileUpload/index.js      (FileUploadHandler + HTTP handler)
  src/src/functions/sharePointUpload/index.js (SharePointHandler + HTTP handler)
External effects (Azure blob storage, the local filesystem, the Microsoft
Graph fetch, the uuid stream) are modelled by oracles packaged in a `World`;
each operation additionally reports the list of external calls it attempted.
-/

set_option autoImplicit false

namespace UploadFn

/-- JS truthiness of an optional string value: `undefined` and the empty
string are falsy, every other string is truthy. -/
def truthy : Option String → Bool
  | none => false
  | some s => s ≠ ""

/-- The JS idiom `x || d` on an optional string: the default is used exactly
when `x` is falsy. -/
def jsOr (x : Option String) (d : String) : String :=
  match x with
  | none => d
  | some s => if s = "" then d else s

/-- Value of a destructured optional string field (empty string for absent). -/
def getStr (x : Option String) : String :=
  match x with
  | none => ""
  | some s => s

/-- Model of `path.join` of a directory and a file name. -/
def pathJoin (dir file : String) : String := dir ++ "/" ++ file

/-- The relevant entries of `process.env`. -/
structure Env where
  azureStorageConnectionString : Option String
  localUploadPath : Option String
  sharepointClientId : Option String
  sharepointClientSecret : Option String
  sharepointTenantId : Option String
  deriving Repr

/-- One attempted external call, recorded in the order the code makes them. -/
inductive Event where
  | blobCreateContainerCall : String → Event
  | blobUploadCall : String → Event
  | fsMkdirCall : String → Event
  | fsWriteCall : String → Event
  | spFetchCall : String → String → String → Event
  deriving DecidableEq, Repr

/-- Oracles fixing the outcome of every external effect: the uuid stream
(`uuid n` is the value of the n-th call to `uuidv4()`), blob container
creation, blob upload (returns the blob URL), `fs.writeFile`, and the
SharePoint content fetch.  An `Except.error` models the awaited promise
rejecting with that message. -/
structure World where
  uuid : Nat → String
  blobCreateContainer : String → String → Except String Unit
  blobUpload : String → String → Except String String
  fsWriteFile : String → String → Except String Unit
  spFetch : String → String → String → Except String String

/-- Result object produced by `uploadToBlob` / `saveToLocal`
(src/src/functions/fileUpload/index.js lines 53-58 and 65-70). -/
structure StorageResult where
  success : Bool
  storage : Option String
  url : Option String
  blobName : Option String
  localPath : Option String
  fileName : Option String
  deriving DecidableEq, Repr

/-- The per-file entry pushed into `results` by the HTTP handlers.  JS spread
semantics: `mockData` is false unless set by the mock branch. -/
structure ResultEntry where
  fileName : Option String
  success : Bool
  storage : Option String
  url : Option String
  blobName : Option String
  localPath : Option String
  error : Option String
  mockData : Bool
  deriving DecidableEq, Repr

/-- The HTTP response assigned to `context.res`. -/
structure HttpResponse where
  status : Nat
  message : Option String
  error : Option String
  details : Option String
  mockMode : Bool
  results : List ResultEntry
  deriving DecidableEq, Repr

/-- Stand-in for `path.join(__dirname, '..', '..', '..', 'uploads')`, the
default local upload directory of the fileUpload module (line 9). -/
def defaultLocalUploadPath : String := "uploads"

/-- State captured by `new FileUploadHandler()`
(src/src/functions/fileUpload/index.js lines 7-10). -/
structure FileUploadHandler where
  connectionString : Option String
  localUploadPath : String
  deriving Repr

/-- Constructor of `FileUploadHandler`: reads the connection string and the
local upload path (with its default) from `process.env`. -/
def FileUploadHandler.ofEnv (env : Env) : FileUploadHandler :=
  { connectionString := env.azureStorageConnectionString
    localUploadPath := jsOr env.localUploadPath defaultLocalUploadPath }

/-- `uploadToBlob` (lines 38-59): create the container if absent, draw a uuid,
name the blob uuid-fileName, upload, and return the blob success object.
A rejection of either remote step becomes an `Except.error` (the JS `await`
rethrows it to the caller).  The uuid counter advances only when the uuid is
actually drawn. -/
def FileUploadHandler.uploadToBlob (h : FileUploadHandler) (w : World) (ctr : Nat)
    (fileContent fileName : String) :
    Except String StorageResult × Nat × List Event :=
  let containerName := "uploads"
  match w.blobCreateContainer (getStr h.connectionString) containerName with
  | Except.error e => (Except.error e, ctr, [Event.blobCreateContainerCall containerName])
  | Except.ok _ =>
    let blobName := w.uuid ctr ++ "-" ++ fileName
    match w.blobUpload blobName fileContent with
    | Except.error e =>
        (Except.error e, ctr + 1,
         [Event.blobCreateContainerCall containerName, Event.blobUploadCall blobName])
    | Except.ok url =>
        (Except.ok { success := true, storage := some "blob", url := some url
                     blobName := some blobName, localPath := none, fileName := none },
         ctr + 1,
         [Event.blobCreateContainerCall containerName, Event.blobUploadCall blobName])

/-- `saveToLocal` (lines 61-71): draw a uuid, write to
localUploadPath/uuid-fileName, and return the local success object.  The
method has no try/catch, so a failing `fs.writeFile` rethrows out of it. -/
def FileUploadHandler.saveToLocal (h : FileUploadHandler) (w : World) (ctr : Nat)
    (fileContent fileName : String) :
    Except String StorageResult × Nat × List Event :=
  let uniqueFileName := w.uuid ctr ++ "-" ++ fileName
  let filePath := pathJoin h.localUploadPath uniqueFileName
  match w.fsWriteFile filePath fileContent with
  | Except.error e => (Except.error e, ctr + 1, [Event.fsWriteCall filePath])
  | Except.ok _ =>
      (Except.ok { success := true, storage := some "local", url := none, blobName := none
                   localPath := some filePath, fileName := some uniqueFileName },
       ctr + 1, [Event.fsWriteCall filePath])

/-- `uploadFile` (lines 20-36): ensure the upload directory (mkdir errors are
swallowed, lines 12-18), then try blob storage when a connection string is
configured, falling back to local storage on a blob failure; with no
connection string go straight to local storage. -/
def FileUploadHandler.uploadFile (h : FileUploadHandler) (w : World) (ctr : Nat)
    (fileContent fileName : String) :
    Except String StorageResult × Nat × List Event :=
  let evs0 : List Event := [Event.fsMkdirCall h.localUploadPath]
  if truthy h.connectionString then
    match h.uploadToBlob w ctr fileContent fileName with
    | (Except.ok r, c, evs) => (Except.ok r, c, evs0 ++ evs)
    | (Except.error _, c, evs) =>
        match h.saveToLocal w c fileContent fileName with
        | (r2, c2, evs2) => (r2, c2, evs0 ++ evs ++ evs2)
  else
    match h.saveToLocal w ctr fileContent fileName with
    | (r, c, evs) => (r, c, evs0 ++ evs)

/-- One uploaded multipart file as the fileUpload handler sees it. -/
structure UploadedFile where
  buffer : String
  originalname : Option String
  deriving Repr

/-- Request body of the fileUpload endpoint. -/
structure FileUploadRequest where
  files : Option (List UploadedFile)
  deriving Repr

/-- The entry `\x7b fileName: orig, ...result \x7d`: JS spread puts the result
object's own fields last, so a `fileName` field inside the result (the local
path case) overrides the original name. -/
def entryOfResult (origName : Option String) (r : StorageResult) : ResultEntry :=
  { fileName := match r.fileName with
      | some s => some s
      | none => origName
    success := r.success
    storage := r.storage
    url := r.url
    blobName := r.blobName
    localPath := r.localPath
    error := none
    mockData := false }

/-- Body of the per-file loop of the fileUpload handler (lines 93-110):
call `uploadFile` with `originalname || 'unnamed-file'`; push the spread
result on success, or a success:false entry when `uploadFile` throws. -/
def processOneUpload (h : FileUploadHandler) (w : World) (ctr : Nat)
    (file : UploadedFile) : ResultEntry × Nat × List Event :=
  match h.uploadFile w ctr file.buffer (jsOr file.originalname "unnamed-file") with
  | (Except.ok r, c, evs) => (entryOfResult file.originalname r, c, evs)
  | (Except.error e, c, evs) =>
      ({ fileName := some (jsOr file.originalname "unnamed-file")
         success := false
         storage := none, url := none, blobName := none, localPath := none
         error := some e, mockData := false }, c, evs)

/-- The for-loop of the fileUpload handler: process every file, in order,
each inside its own try/catch, accumulating results and external calls. -/
def processUploads (h : FileUploadHandler) (w : World) :
    Nat → List UploadedFile → List ResultEntry × Nat × List Event
  | ctr, [] => ([], ctr, [])
  | ctr, f :: fs =>
      let s := processOneUpload h w ctr f
      let rest := processUploads h w s.2.1 fs
      (s.1 :: rest.1, rest.2.1, s.2.2 ++ rest.2.2)

/-- The uuid-counter value after processing a prefix of the batch. -/
def ctrAfterUploads (h : FileUploadHandler) (w : World) :
    Nat → List UploadedFile → Nat
  | ctr, [] => ctr
  | ctr, f :: fs => ctrAfterUploads h w (processOneUpload h w ctr f).2.1 fs

/-- `module.exports` of src/src/functions/fileUpload/index.js (lines 74-129):
reject a missing or empty file list with 400, otherwise run the per-file loop
and answer 200 with the collected results. -/
def fileUploadEndpoint (env : Env) (w : World) (req : FileUploadRequest) :
    HttpResponse × List Event :=
  let h := FileUploadHandler.ofEnv env
  match req.files with
  | none =>
      ({ status := 400, message := none, error := some "No files were uploaded"
         details := some "Request must include at least one file"
         mockMode := false, results := [] }, [])
  | some files =>
      if files.length = 0 then
        ({ status := 400, message := none, error := some "No files were uploaded"
           details := some "Request must include at least one file"
           mockMode := false, results := [] }, [])
      else
        let out := processUploads h w 0 files
        ({ status := 200, message := some "Files processed successfully"
           error := none, details := none, mockMode := false
           results := out.1 }, out.2.2)

/-- One SharePoint file reference from the request body. -/
structure SharePointFileRef where
  siteId : Option String
  driveId : Option String
  itemId : Option String
  fileName : Option String
  deriving Repr

/-- Request body of the sharePointUpload endpoint. -/
structure SharePointRequest where
  files : Option (List SharePointFileRef)
  deriving Repr

/-- State captured by `new SharePointHandler()`
(src/src/functions/sharePointUpload/index.js lines 6-27): the Graph client is
initialized only when all three credentials are present; otherwise the
constructor returns early and `this.client` stays undefined. -/
structure SharePointHandler where
  hasClient : Bool
  deriving Repr

/-- Constructor of `SharePointHandler` from `process.env`. -/
def SharePointHandler.ofEnv (env : Env) : SharePointHandler :=
  { hasClient := truthy env.sharepointClientId && truthy env.sharepointClientSecret
      && truthy env.sharepointTenantId }

/-- `getFileFromSharePoint` (lines 29-42): with no client it throws without
any network call; otherwise it performs one Graph fetch, wrapping a fetch
error message. -/
def SharePointHandler.getFileFromSharePoint (sp : SharePointHandler) (w : World)
    (siteId driveId itemId : String) : Except String String × List Event :=
  if sp.hasClient then
    match w.spFetch siteId driveId itemId with
    | Except.ok content => (Except.ok content, [Event.spFetchCall siteId driveId itemId])
    | Except.error e =>
        (Except.error ("Failed to fetch file from SharePoint: " ++ e),
         [Event.spFetchCall siteId driveId itemId])
  else
    (Except.error "SharePoint client not initialized - missing credentials", [])

/-- The catch-branch entry of the sharePointUpload per-file loop
(lines 108-114). -/
def spCatchEntry (file : SharePointFileRef) (e : String) : ResultEntry :=
  { fileName := some (jsOr file.fileName "unknown")
    success := false
    storage := none, url := none, blobName := none, localPath := none
    error := some e, mockData := false }

/-- Body of the sharePointUpload per-file loop (lines 84-115): validate the
four destructured fields (JS truthiness), push a failure entry and continue
when any is falsy, otherwise fetch from SharePoint and store via
`uploadFile`; any throw is caught into a failure entry. -/
def processOneSharePointFile (sp : SharePointHandler) (h : FileUploadHandler)
    (w : World) (ctr : Nat) (file : SharePointFileRef) :
    ResultEntry × Nat × List Event :=
  if truthy file.siteId && truthy file.driveId && truthy file.itemId
      && truthy file.fileName then
    match sp.getFileFromSharePoint w (getStr file.siteId) (getStr file.driveId)
        (getStr file.itemId) with
    | (Except.error e, evs) => (spCatchEntry file e, ctr, evs)
    | (Except.ok content, evs) =>
        match h.uploadFile w ctr content (getStr file.fileName) with
        | (Except.ok r, c, evs2) =>
            (entryOfResult (some (getStr file.fileName)) r, c, evs ++ evs2)
        | (Except.error e, c, evs2) => (spCatchEntry file e, c, evs ++ evs2)
  else
    ({ fileName := some (jsOr file.fileName "unknown")
       success := false
       storage := none, url := none, blobName := none, localPath := none
       error := some "Missing required SharePoint file information"
       mockData := false }, ctr, [])

/-- The for-loop of the sharePointUpload handler over the file references. -/
def processSharePointFiles (sp : SharePointHandler) (h : FileUploadHandler)
    (w : World) : Nat → List SharePointFileRef → List ResultEntry × Nat × List Event
  | ctr, [] => ([], ctr, [])
  | ctr, f :: fs =>
      let s := processOneSharePointFile sp h w ctr f
      let rest := processSharePointFiles sp h w s.2.1 fs
      (s.1 :: rest.1, rest.2.1, s.2.2 ++ rest.2.2)

/-- The uuid-counter value after a prefix of the SharePoint batch. -/
def ctrAfterSharePoint (sp : SharePointHandler) (h : FileUploadHandler)
    (w : World) : Nat → List SharePointFileRef → Nat
  | ctr, [] => ctr
  | ctr, f :: fs =>
      ctrAfterSharePoint sp h w (processOneSharePointFile sp h w ctr f).2.1 fs

/-- The named export `FileUploadHandler` of the fileUpload module as seen by
`require('../fileUpload/index.js')` at src/src/functions/sharePointUpload/index.js
line 4: the fileUpload module assigns `module.exports` to its anonymous
handler function (line 74) and exports nothing else, so the destructured
binding is undefined (`none`). -/
def fileUploadModuleNamedExport : Option Unit := none

/-- `module.exports` of src/src/functions/sharePointUpload/index.js
(lines 45-134): mock branch when client id or secret is falsy; 400 on a
missing or empty file list; then `new SharePointHandler()` (which never
throws) and `new FileUploadHandler()` — the latter binding is undefined, so
the construction throws a TypeError that the outer catch turns into a 500
before any file is processed. -/
def sharePointUploadEndpoint (env : Env) (w : World) (req : SharePointRequest) :
    HttpResponse × List Event :=
  if truthy env.sharepointClientId && truthy env.sharepointClientSecret then
    match req.files with
    | none =>
        ({ status := 400, message := none, error := some "No files provided"
           details := some "Request must include an array of SharePoint files"
           mockMode := false, results := [] }, [])
    | some files =>
        if files.length = 0 then
          ({ status := 400, message := none, error := some "No files provided"
             details := some "Request must include an array of SharePoint files"
             mockMode := false, results := [] }, [])
        else
          match fileUploadModuleNamedExport with
          | none =>
              ({ status := 500, message := none
                 error := some "SharePoint upload failed"
                 details := some "FileUploadHandler is not a constructor"
                 mockMode := false, results := [] }, [])
          | some _ =>
              let sp := SharePointHandler.ofEnv env
              let h := FileUploadHandler.ofEnv env
              let out := processSharePointFiles sp h w 0 files
              ({ status := 200, message := some "SharePoint files processed"
                 error := none, details := none, mockMode := false
                 results := out.1 }, out.2.2)
  else
    ({ status := 200
       message := some "SharePoint integration not configured. Using mock data."
       error := none, details := none, mockMode := true
       results := [{ fileName := some "mock-file.txt", success := true
                     storage := some "local", url := none, blobName := none
                     localPath := some (pathJoin (jsOr env.localUploadPath "uploads")
                       "mock-file.txt")
                     error := none, mockData := true }] }, [])

/-- The generated storage name of a successful result: the blob name for blob
storage, the unique local file name for local storage. -/
def generatedName (r : StorageResult) : Option String :=
  match r.storage with
  | some s => if s = "blob" then r.blobName else r.fileName
  | none => none

/-- Whether the store operation resolved to a local-storage success result. -/
def returnsLocalSuccess : Except String StorageResult → Bool
  | Except.ok r => r.success && r.storage == some "local"
  | Except.error _ => false

/-- Whether the store operation resolved to any result at all (rather than
throwing). -/
def resolvesToResult : Except String StorageResult → Bool
  | Except.ok _ => true
  | Except.error _ => false

/-- Whether an external call touches the remote blob client. -/
def isRemoteBlobCall : Event → Bool
  | Event.blobCreateContainerCall _ => true
  | Event.blobUploadCall _ => true
  | _ => false

/-- Whether an external call is a SharePoint content fetch. -/
def isFetchCall : Event → Bool
  | Event.spFetchCall _ _ _ => true
  | _ => false

/-! Concrete environments and worlds used to instantiate the theorems. -/

/-- Environment with nothing configured: purely local deployment. -/
def envLocalOnly : Env :=
  { azureStorageConnectionString := none, localUploadPath := none
    sharepointClientId := none, sharepointClientSecret := none
    sharepointTenantId := none }

/-- Environment with a blob-storage connection string configured. -/
def envBlob : Env :=
  { azureStorageConnectionString := some "UseDevelopmentStorage=true"
    localUploadPath := none
    sharepointClientId := none, sharepointClientSecret := none
    sharepointTenantId := none }

/-- Environment with the full SharePoint credential triplet configured. -/
def envSharePoint : Env :=
  { azureStorageConnectionString := none, localUploadPath := none
    sharepointClientId := some "client-id"
    sharepointClientSecret := some "client-secret"
    sharepointTenantId := some "tenant-id" }

/-- A concrete uuid stream whose draws are pairwise distinct: the n-th draw
is the string of n+1 copies of the letter u. -/
def uuidSeq (n : Nat) : String := String.mk (List.replicate (n + 1) 'u')

/-- World in which every external operation succeeds. -/
def wAllOk : World :=
  { uuid := uuidSeq
    blobCreateContainer := fun _ _ => Except.ok ()
    blobUpload := fun _ _ => Except.ok "https://example.test/blob"
    fsWriteFile := fun _ _ => Except.ok ()
    spFetch := fun _ _ _ => Except.ok "sp-content" }

/-- World in which the remote blob upload rejects. -/
def wBlobDown : World :=
  { wAllOk with blobUpload := fun _ _ => Except.error "network down" }

/-- World in which the local disk write rejects. -/
def wDiskFull : World :=
  { wAllOk with fsWriteFile := fun _ _ => Except.error "disk full" }

/-- World in which both the blob upload and the local disk write reject. -/
def wBlobDownDiskFull : World :=
  { wBlobDown with fsWriteFile := fun _ _ => Except.error "disk full" }

/-! Helper lemmas about the storage router. -/

/-- Appending the same suffix to two distinct strings keeps them distinct. -/
theorem string_append_cancel_right (a b t : String) (h : a ++ t = b ++ t) : a = b := by
  apply String.ext
  have h2 := congrArg String.data h
  rw [String.data_append, String.data_append] at h2
  exact List.append_cancel_right h2

/-- Unfolding of `saveToLocal` by the outcome of the disk write. -/
theorem saveToLocal_eq (h : FileUploadHandler) (w : World) (c : Nat)
    (content name : String) :
    h.saveToLocal w c content name =
      ((match w.fsWriteFile (pathJoin h.localUploadPath (w.uuid c ++ "-" ++ name))
            content with
        | Except.error e => Except.error e
        | Except.ok _ =>
            Except.ok { success := true, storage := some "local", url := none
                        blobName := none
                        localPath := some (pathJoin h.localUploadPath
                          (w.uuid c ++ "-" ++ name))
                        fileName := some (w.uuid c ++ "-" ++ name) }),
       c + 1,
       [Event.fsWriteCall (pathJoin h.localUploadPath (w.uuid c ++ "-" ++ name))]) := by
  cases hfs : w.fsWriteFile (pathJoin h.localUploadPath (w.uuid c ++ "-" ++ name)) content
    <;> simp [FileUploadHandler.saveToLocal, hfs]

/-- A successful `saveToLocal` result is the local success object and
certifies a successful disk write. -/
theorem saveToLocal_ok (h : FileUploadHandler) (w : World) (c : Nat)
    (content name : String) (r : StorageResult)
    (hok : (h.saveToLocal w c content name).1 = Except.ok r) :
    r.success = true ∧ r.storage = some "local"
    ∧ r.fileName = some (w.uuid c ++ "-" ++ name)
    ∧ w.fsWriteFile (pathJoin h.localUploadPath (w.uuid c ++ "-" ++ name)) content
        = Except.ok () := by
  rw [saveToLocal_eq] at hok
  cases hfs : w.fsWriteFile (pathJoin h.localUploadPath (w.uuid c ++ "-" ++ name)) content
  case error e => rw [hfs] at hok; simp at hok
  case ok u =>
    rw [hfs] at hok
    simp at hok
    subst hok
    exact ⟨rfl, rfl, rfl, rfl⟩

/-- A thrown `saveToLocal` is exactly a failed disk write with the same
error. -/
theorem saveToLocal_error (h : FileUploadHandler) (w : World) (c : Nat)
    (content name e : String)
    (herr : (h.saveToLocal w c content name).1 = Except.error e) :
    w.fsWriteFile (pathJoin h.localUploadPath (w.uuid c ++ "-" ++ name)) content
      = Except.error e := by
  rw [saveToLocal_eq] at herr
  cases hfs : w.fsWriteFile (pathJoin h.localUploadPath (w.uuid c ++ "-" ++ name)) content
  case error e2 => rw [hfs] at herr; simp at herr; rw [herr]
  case ok u => rw [hfs] at herr; simp at herr

/-- Unfolding of `uploadFile` when no connection string is configured. -/
theorem uploadFile_eq_noconn (h : FileUploadHandler) (w : World) (ctr : Nat)
    (content name : String) (hc : truthy h.connectionString = false) :
    h.uploadFile w ctr content name =
      ((h.saveToLocal w ctr content name).1, (h.saveToLocal w ctr content name).2.1,
       Event.fsMkdirCall h.localUploadPath :: (h.saveToLocal w ctr content name).2.2) := by
  rcases hs : h.saveToLocal w ctr content name with ⟨r, c, evs⟩
  simp [FileUploadHandler.uploadFile, hc, hs]

/-- Unfolding of `uploadFile` when the blob attempt succeeds. -/
theorem uploadFile_eq_blob_ok (h : FileUploadHandler) (w : World) (ctr : Nat)
    (content name : String) (r : StorageResult) (c : Nat) (evs : List Event)
    (hc : truthy h.connectionString = true)
    (hub : h.uploadToBlob w ctr content name = (Except.ok r, c, evs)) :
    h.uploadFile w ctr content name =
      (Except.ok r, c, Event.fsMkdirCall h.localUploadPath :: evs) := by
  simp [FileUploadHandler.uploadFile, hc, hub]

/-- Unfolding of `uploadFile` when the blob attempt throws: the call falls
back to `saveToLocal` at the counter the blob attempt left behind. -/
theorem uploadFile_eq_blob_err (h : FileUploadHandler) (w : World) (ctr : Nat)
    (content name e : String) (c : Nat) (evs : List Event)
    (hc : truthy h.connectionString = true)
    (hub : h.uploadToBlob w ctr content name = (Except.error e, c, evs)) :
    h.uploadFile w ctr content name =
      ((h.saveToLocal w c content name).1, (h.saveToLocal w c content name).2.1,
       Event.fsMkdirCall h.localUploadPath
         :: (evs ++ (h.saveToLocal w c content name).2.2)) := by
  rcases hs : h.saveToLocal w c content name with ⟨r2, c2, evs2⟩
  simp [FileUploadHandler.uploadFile, hc, hub, hs]

/-- Unfolding of `uploadToBlob` when container creation throws. -/
theorem uploadToBlob_eq_container_err (h : FileUploadHandler) (w : World) (ctr : Nat)
    (content name e : String)
    (hcc : w.blobCreateContainer (getStr h.connectionString) "uploads" = Except.error e) :
    h.uploadToBlob w ctr content name =
      (Except.error e, ctr, [Event.blobCreateContainerCall "uploads"]) := by
  simp [FileUploadHandler.uploadToBlob, hcc]

/-- Unfolding of `uploadToBlob` when the container exists but the upload
throws. -/
theorem uploadToBlob_eq_upload_err (h : FileUploadHandler) (w : World) (ctr : Nat)
    (content name e : String)
    (hcc : w.blobCreateContainer (getStr h.connectionString) "uploads" = Except.ok ())
    (hup : w.blobUpload (w.uuid ctr ++ "-" ++ name) content = Except.error e) :
    h.uploadToBlob w ctr content name =
      (Except.error e, ctr + 1,
       [Event.blobCreateContainerCall "uploads",
        Event.blobUploadCall (w.uuid ctr ++ "-" ++ name)]) := by
  simp [FileUploadHandler.uploadToBlob, hcc, hup]

/-- Unfolding of `uploadToBlob` when both remote steps succeed. -/
theorem uploadToBlob_eq_ok (h : FileUploadHandler) (w : World) (ctr : Nat)
    (content name url : String)
    (hcc : w.blobCreateContainer (getStr h.connectionString) "uploads" = Except.ok ())
    (hup : w.blobUpload (w.uuid ctr ++ "-" ++ name) content = Except.ok url) :
    h.uploadToBlob w ctr content name =
      (Except.ok { success := true, storage := some "blob", url := some url
                   blobName := some (w.uuid ctr ++ "-" ++ name)
                   localPath := none, fileName := none },
       ctr + 1,
       [Event.blobCreateContainerCall "uploads",
        Event.blobUploadCall (w.uuid ctr ++ "-" ++ name)]) := by
  simp [FileUploadHandler.uploadToBlob, hcc, hup]

/-- Every successful `uploadFile` result carries a generated name built from
a fresh uuid draw: the draw index is at least the starting counter and the
returned counter sits just past it. -/
theorem uploadFile_ok_generatedName (h : FileUploadHandler) (w : World) (ctr : Nat)
    (content name : String) (r : StorageResult)
    (hok : (h.uploadFile w ctr content name).1 = Except.ok r) :
    ∃ k, ctr ≤ k ∧ (h.uploadFile w ctr content name).2.1 = k + 1
      ∧ generatedName r = some (w.uuid k ++ "-" ++ name) := by
  cases hc : truthy h.connectionString
  case false =>
    rw [uploadFile_eq_noconn h w ctr content name hc] at hok ⊢
    rw [saveToLocal_eq] at hok ⊢
    cases hfs : w.fsWriteFile (pathJoin h.localUploadPath (w.uuid ctr ++ "-" ++ name)) content
    case error e => rw [hfs] at hok; simp at hok
    case ok u =>
      rw [hfs] at hok
      simp at hok
      subst hok
      exact ⟨ctr, Nat.le_refl ctr, rfl, by simp [generatedName]⟩
  case true =>
    cases hcc : w.blobCreateContainer (getStr h.connectionString) "uploads"
    case error e =>
      rw [uploadFile_eq_blob_err h w ctr content name e ctr
            [Event.blobCreateContainerCall "uploads"] hc
            (uploadToBlob_eq_container_err h w ctr content name e hcc)] at hok ⊢
      rw [saveToLocal_eq] at hok ⊢
      cases hfs : w.fsWriteFile (pathJoin h.localUploadPath (w.uuid ctr ++ "-" ++ name)) content
      case error e2 => rw [hfs] at hok; simp at hok
      case ok u =>
        rw [hfs] at hok
        simp at hok
        subst hok
        exact ⟨ctr, Nat.le_refl ctr, rfl, by simp [generatedName]⟩
    case ok u =>
      cases u
      cases hup : w.blobUpload (w.uuid ctr ++ "-" ++ name) content
      case error e =>
        rw [uploadFile_eq_blob_err h w ctr content name e (ctr + 1)
              [Event.blobCreateContainerCall "uploads",
               Event.blobUploadCall (w.uuid ctr ++ "-" ++ name)] hc
              (uploadToBlob_eq_upload_err h w ctr content name e hcc hup)] at hok ⊢
        rw [saveToLocal_eq] at hok ⊢
        cases hfs : w.fsWriteFile
            (pathJoin h.localUploadPath (w.uuid (ctr + 1) ++ "-" ++ name)) content
        case error e2 => rw [hfs] at hok; simp at hok
        case ok u2 =>
          rw [hfs] at hok
          simp at hok
          subst hok
          exact ⟨ctr + 1, Nat.le_succ ctr, rfl, by simp [generatedName]⟩
      case ok url =>
        rw [uploadFile_eq_blob_ok h w ctr content name _ (ctr + 1)
              [Event.blobCreateContainerCall "uploads",
               Event.blobUploadCall (w.uuid ctr ++ "-" ++ name)] hc
              (uploadToBlob_eq_ok h w ctr content name url hcc hup)] at hok ⊢
        simp at hok
        subst hok
        exact ⟨ctr, Nat.le_refl ctr, rfl, by simp [generatedName]⟩

/-- Every throw of `uploadFile` is a failed local disk write with the same
error message. -/
theorem uploadFile_error_localWrite (h : FileUploadHandler) (w : World) (ctr : Nat)
    (content name e : String)
    (herr : (h.uploadFile w ctr content name).1 = Except.error e) :
    ∃ k, w.fsWriteFile (pathJoin h.localUploadPath (w.uuid k ++ "-" ++ name)) content
      = Except.error e := by
  cases hc : truthy h.connectionString
  case false =>
    rw [uploadFile_eq_noconn h w ctr content name hc] at herr
    exact ⟨ctr, saveToLocal_error h w ctr content name e herr⟩
  case true =>
    cases hcc : w.blobCreateContainer (getStr h.connectionString) "uploads"
    case error e2 =>
      rw [uploadFile_eq_blob_err h w ctr content name e2 ctr
            [Event.blobCreateContainerCall "uploads"] hc
            (uploadToBlob_eq_container_err h w ctr content name e2 hcc)] at herr
      exact ⟨ctr, saveToLocal_error h w ctr content name e herr⟩
    case ok u =>
      cases u
      cases hup : w.blobUpload (w.uuid ctr ++ "-" ++ name) content
      case error e2 =>
        rw [uploadFile_eq_blob_err h w ctr content name e2 (ctr + 1)
              [Event.blobCreateContainerCall "uploads",
               Event.blobUploadCall (w.uuid ctr ++ "-" ++ name)] hc
              (uploadToBlob_eq_upload_err h w ctr content name e2 hcc hup)] at herr
        exact ⟨ctr + 1, saveToLocal_error h w (ctr + 1) content name e herr⟩
      case ok url =>
        rw [uploadFile_eq_blob_ok h w ctr content name _ (ctr + 1)
              [Event.blobCreateContainerCall "uploads",
               Event.blobUploadCall (w.uuid ctr ++ "-" ++ name)] hc
              (uploadToBlob_eq_ok h w ctr content name url hcc hup)] at herr
        simp at herr

/-! Claim theorems. -/

/-- C1 counterexample: with the connection string configured, the remote
upload failing, and the fallback disk write also failing, `uploadFile` does
not return a local success result — it throws the disk error — so the claim
as stated (every such input returns storage local with success true) is
false at this input. -/
theorem c1_counterexample :
    truthy (FileUploadHandler.ofEnv envBlob).connectionString = true
    ∧ ((FileUploadHandler.ofEnv envBlob).uploadToBlob wBlobDownDiskFull 0
        "payload" "report.txt").1 = Except.error "network down"
    ∧ ((FileUploadHandler.ofEnv envBlob).uploadFile wBlobDownDiskFull 0
        "payload" "report.txt").1 = Except.error "disk full"
    ∧ returnsLocalSuccess ((FileUploadHandler.ofEnv envBlob).uploadFile
        wBlobDownDiskFull 0 "payload" "report.txt").1 = false :=
  ⟨rfl, rfl, rfl, rfl⟩

/-- C1 (amended): with the connection string configured and the remote upload
attempt failing, whenever the fallback disk write succeeds `uploadFile`
returns its local result with storage local and success true; and any error
it does propagate is the fallback disk write error, never the remote one. -/
theorem c1_blob_failure_falls_back_to_local (h : FileUploadHandler) (w : World)
    (ctr : Nat) (content name e : String)
    (hconf : truthy h.connectionString = true)
    (hfail : (h.uploadToBlob w ctr content name).1 = Except.error e) :
    (∀ r, (h.saveToLocal w (h.uploadToBlob w ctr content name).2.1 content name).1
        = Except.ok r →
      (h.uploadFile w ctr content name).1 = Except.ok r
      ∧ r.storage = some "local" ∧ r.success = true)
    ∧ (∀ e2, (h.uploadFile w ctr content name).1 = Except.error e2 →
      (h.saveToLocal w (h.uploadToBlob w ctr content name).2.1 content name).1
        = Except.error e2) := by
  rcases hub : h.uploadToBlob w ctr content name with ⟨rb, cb, evb⟩
  have hrb : rb = Except.error e := by rw [hub] at hfail; simpa using hfail
  subst hrb
  have hupl := uploadFile_eq_blob_err h w ctr content name e cb evb hconf hub
  dsimp only
  constructor
  · intro r hr
    obtain ⟨hs1, hs2, _, _⟩ := saveToLocal_ok h w cb content name r hr
    refine ⟨?_, hs2, hs1⟩
    rw [hupl]
    exact hr
  · intro e2 he2
    rw [hupl] at he2
    exact he2

/-- C1 witness: concrete instance with a failing blob upload and a working
disk, showing the fallback local success result. -/
theorem c1_blob_failure_falls_back_to_local_witness :
    ((FileUploadHandler.ofEnv envBlob).uploadFile wBlobDown 0 "x" "f.txt").1 =
      Except.ok { success := true, storage := some "local", url := none
                  blobName := none
                  localPath := some "uploads/uu-f.txt"
                  fileName := some "uu-f.txt" } :=
  ((c1_blob_failure_falls_back_to_local (FileUploadHandler.ofEnv envBlob) wBlobDown
      0 "x" "f.txt" "network down" rfl rfl).1 _ rfl).1

/-- C2 counterexample: with no connection string and a failing disk, the
terminal local write makes `uploadFile` throw rather than resolve to a
StorageResult, so the claim that every failure path resolves to a returned
result is false at this input. -/
theorem c2_counterexample :
    ((FileUploadHandler.ofEnv envLocalOnly).uploadFile wDiskFull 0 "data"
        "notes.txt").1 = Except.error "disk full"
    ∧ resolvesToResult ((FileUploadHandler.ofEnv envLocalOnly).uploadFile wDiskFull 0
        "data" "notes.txt").1 = false :=
  ⟨rfl, rfl⟩

/-- C2 (amended): `uploadFile` either resolves to a returned StorageResult,
or it throws, and then the thrown error is exactly a failed terminal local
disk write; in that case the enclosing per-file loop catches it and records
a per-unit result with success false carrying that error. -/
theorem c2_throws_only_on_terminal_local_write (h : FileUploadHandler) (w : World)
    (ctr : Nat) (file : UploadedFile) :
    (∃ r, (h.uploadFile w ctr file.buffer (jsOr file.originalname "unnamed-file")).1
        = Except.ok r)
    ∨ (∃ e k,
        (h.uploadFile w ctr file.buffer (jsOr file.originalname "unnamed-file")).1
          = Except.error e
        ∧ w.fsWriteFile (pathJoin h.localUploadPath
            (w.uuid k ++ "-" ++ jsOr file.originalname "unnamed-file")) file.buffer
          = Except.error e
        ∧ (processOneUpload h w ctr file).1.success = false
        ∧ (processOneUpload h w ctr file).1.error = some e) := by
  rcases hup : h.uploadFile w ctr file.buffer (jsOr file.originalname "unnamed-file")
    with ⟨res, c, evs⟩
  cases res
  case ok r =>
    left
    exact ⟨r, rfl⟩
  case error e =>
    right
    have h1 : (h.uploadFile w ctr file.buffer
        (jsOr file.originalname "unnamed-file")).1 = Except.error e := by rw [hup]
    obtain ⟨k, hk⟩ := uploadFile_error_localWrite h w ctr file.buffer
      (jsOr file.originalname "unnamed-file") e h1
    refine ⟨e, k, rfl, hk, ?_, ?_⟩
      <;> simp [processOneUpload, hup]

/-- C4 counterexample: with no connection string configured but a failing
disk, `uploadFile` throws instead of returning a storage local result, so the
claim as stated (every such input returns a result with storage local) is
false at this input; the no-remote-call half still holds there. -/
theorem c4_counterexample :
    truthy (FileUploadHandler.ofEnv envLocalOnly).connectionString = false
    ∧ ((FileUploadHandler.ofEnv envLocalOnly).uploadFile wDiskFull 0 "x"
        "c4.txt").1 = Except.error "disk full"
    ∧ returnsLocalSuccess ((FileUploadHandler.ofEnv envLocalOnly).uploadFile wDiskFull
        0 "x" "c4.txt").1 = false
    ∧ (((FileUploadHandler.ofEnv envLocalOnly).uploadFile wDiskFull 0 "x"
        "c4.txt").2.2).countP isRemoteBlobCall = 0 :=
  ⟨rfl, rfl, rfl, rfl⟩

/-- C4 (amended): with no connection string configured, `uploadFile` makes
zero calls on the remote blob client, and any result it does return has
storage local with success true. -/
theorem c4_no_conn_means_no_remote_call (h : FileUploadHandler) (w : World)
    (ctr : Nat) (content name : String)
    (hconf : truthy h.connectionString = false) :
    ((h.uploadFile w ctr content name).2.2).countP isRemoteBlobCall = 0
    ∧ ∀ r, (h.uploadFile w ctr content name).1 = Except.ok r →
        r.storage = some "local" ∧ r.success = true := by
  rw [uploadFile_eq_noconn h w ctr content name hconf]
  constructor
  · rw [saveToLocal_eq]
    simp [isRemoteBlobCall]
  · intro r hr
    obtain ⟨hs1, hs2, _, _⟩ := saveToLocal_ok h w ctr content name r hr
    exact ⟨hs2, hs1⟩

/-- C4 witness: concrete no-connection-string instance, with a working disk,
showing zero remote calls and the local result. -/
theorem c4_no_conn_means_no_remote_call_witness :
    (((FileUploadHandler.ofEnv envLocalOnly).uploadFile wAllOk 0 "x"
        "f.txt").2.2).countP isRemoteBlobCall = 0
    ∧ ((FileUploadHandler.ofEnv envLocalOnly).uploadFile wAllOk 0 "x"
        "f.txt").1 = Except.ok { success := true, storage := some "local"
                                 url := none, blobName := none
                                 localPath := some "uploads/u-f.txt"
                                 fileName := some "u-f.txt" } :=
  ⟨(c4_no_conn_means_no_remote_call (FileUploadHandler.ofEnv envLocalOnly) wAllOk 0
      "x" "f.txt" rfl).1, rfl⟩

/-- The direct-upload loop yields one entry per input file. -/
theorem processUploads_length (h : FileUploadHandler) (w : World) :
    ∀ (ctr : Nat) (files : List UploadedFile),
      ((processUploads h w ctr files).1).length = files.length := by
  intro ctr files
  induction files generalizing ctr with
  | nil => rfl
  | cons f fs ih => simp [processUploads, ih]

/-- The i-th entry of the direct-upload loop output is the result of
processing the i-th input file, at the uuid counter reached after the first
i files. -/
theorem processUploads_get (h : FileUploadHandler) (w : World) :
    ∀ (ctr : Nat) (files : List UploadedFile) (i : Nat),
      ((processUploads h w ctr files).1).get? i
        = (files.get? i).map (fun f =>
            (processOneUpload h w (ctrAfterUploads h w ctr (files.take i)) f).1) := by
  intro ctr files
  induction files generalizing ctr with
  | nil => intro i; simp [processUploads]
  | cons f fs ih =>
      intro i
      cases i with
      | zero => simp [processUploads, ctrAfterUploads]
      | succ n =>
          simpa [processUploads, ctrAfterUploads]
            using ih (processOneUpload h w ctr f).2.1 n

/-- The SharePoint loop yields one entry per input reference. -/
theorem processSharePointFiles_length (sp : SharePointHandler)
    (h : FileUploadHandler) (w : World) :
    ∀ (ctr : Nat) (files : List SharePointFileRef),
      ((processSharePointFiles sp h w ctr files).1).length = files.length := by
  intro ctr files
  induction files generalizing ctr with
  | nil => rfl
  | cons f fs ih => simp [processSharePointFiles, ih]

/-- The i-th entry of the SharePoint loop output is the result of processing
the i-th input reference. -/
theorem processSharePointFiles_get (sp : SharePointHandler)
    (h : FileUploadHandler) (w : World) :
    ∀ (ctr : Nat) (files : List SharePointFileRef) (i : Nat),
      ((processSharePointFiles sp h w ctr files).1).get? i
        = (files.get? i).map (fun f =>
            (processOneSharePointFile sp h w
              (ctrAfterSharePoint sp h w ctr (files.take i)) f).1) := by
  intro ctr files
  induction files generalizing ctr with
  | nil => intro i; simp [processSharePointFiles]
  | cons f fs ih =>
      intro i
      cases i with
      | zero => simp [processSharePointFiles, ctrAfterSharePoint]
      | succ n =>
          simpa [processSharePointFiles, ctrAfterSharePoint]
            using ih (processOneSharePointFile sp h w ctr f).2.1 n

/-- C3: both per-file loops produce exactly one entry per input unit, in
input order — the i-th output entry is the processing of the i-th input, and
a failing unit cannot abort or skip later units since every unit contributes
its entry whatever the worlds' outcomes are. -/
theorem c3_batch_length_and_order (h : FileUploadHandler) (sp : SharePointHandler)
    (w : World) (ctr : Nat) (files : List UploadedFile)
    (spFiles : List SharePointFileRef) (i : Nat) :
    ((processUploads h w ctr files).1).length = files.length
    ∧ ((processUploads h w ctr files).1).get? i
        = (files.get? i).map (fun f =>
            (processOneUpload h w (ctrAfterUploads h w ctr (files.take i)) f).1)
    ∧ ((processSharePointFiles sp h w ctr spFiles).1).length = spFiles.length
    ∧ ((processSharePointFiles sp h w ctr spFiles).1).get? i
        = (spFiles.get? i).map (fun f =>
            (processOneSharePointFile sp h w
              (ctrAfterSharePoint sp h w ctr (spFiles.take i)) f).1) :=
  ⟨processUploads_length h w ctr files,
   processUploads_get h w ctr files i,
   processSharePointFiles_length sp h w ctr spFiles,
   processSharePointFiles_get sp h w ctr spFiles i⟩

/-- C5 counterexample: with the SharePoint credentials absent and an empty
files list, the endpoint answers 200 in mock mode, not a 400-class response,
so the claim as stated (every empty-files request gets a 400-class response)
is false at this input. -/
theorem c5_counterexample :
    (sharePointUploadEndpoint envLocalOnly wAllOk { files := some [] }).1.status = 200
    ∧ (sharePointUploadEndpoint envLocalOnly wAllOk { files := some [] }).1.mockMode
        = true
    ∧ ¬(400 ≤ (sharePointUploadEndpoint envLocalOnly wAllOk
          { files := some [] }).1.status
        ∧ (sharePointUploadEndpoint envLocalOnly wAllOk
          { files := some [] }).1.status < 500) := by
  refine ⟨rfl, rfl, ?_⟩
  intro hcontra
  have h2 : (400 : Nat) ≤ 200 ∧ (200 : Nat) < 500 := hcontra
  omega

/-- C5 (amended): for every request with the SharePoint client id and secret
configured whose files field is missing or an empty list, the endpoint
answers 400 with no external calls; with the credentials absent such requests
take the 200 mock branch instead. -/
theorem c5_empty_files_rejected_with_400 (env : Env) (w : World)
    (req : SharePointRequest)
    (hid : truthy env.sharepointClientId = true)
    (hsec : truthy env.sharepointClientSecret = true)
    (hempty : req.files = none ∨ req.files = some []) :
    (sharePointUploadEndpoint env w req).1.status = 400
    ∧ (sharePointUploadEndpoint env w req).1.error = some "No files provided"
    ∧ (sharePointUploadEndpoint env w req).2 = [] := by
  rcases hempty with hnone | hnil
  · refine ⟨?_, ?_, ?_⟩ <;> simp [sharePointUploadEndpoint, hid, hsec, hnone]
  · refine ⟨?_, ?_, ?_⟩ <;> simp [sharePointUploadEndpoint, hid, hsec, hnil]

/-- C5 witness: concrete credentialed request with an empty files list. -/
theorem c5_empty_files_rejected_with_400_witness :
    (sharePointUploadEndpoint envSharePoint wAllOk { files := some [] }).1.status = 400
    ∧ (sharePointUploadEndpoint envSharePoint wAllOk
        { files := some [] }).1.error = some "No files provided"
    ∧ (sharePointUploadEndpoint envSharePoint wAllOk { files := some [] }).2 = [] :=
  c5_empty_files_rejected_with_400 envSharePoint wAllOk { files := some [] } rfl rfl
    (Or.inr rfl)

/-- C6: every request that passes the credential check and carries a
non-empty files list reaches `new FileUploadHandler()`, whose binding — the
destructured named export absent from the fileUpload module — is undefined;
the construction throws, the outer catch answers 500, and no external call
is made, so no unit is ever processed. -/
theorem c6_processing_path_returns_500 (env : Env) (w : World)
    (req : SharePointRequest) (files : List SharePointFileRef)
    (hid : truthy env.sharepointClientId = true)
    (hsec : truthy env.sharepointClientSecret = true)
    (hf : req.files = some files) (hne : files ≠ []) :
    (sharePointUploadEndpoint env w req).1.status = 500
    ∧ (sharePointUploadEndpoint env w req).1.details
        = some "FileUploadHandler is not a constructor"
    ∧ (sharePointUploadEndpoint env w req).2 = [] := by
  have hlen : ¬ files.length = 0 := by simpa [List.length_eq_zero] using hne
  refine ⟨?_, ?_, ?_⟩ <;>
    simp [sharePointUploadEndpoint, hid, hsec, hf, hlen, fileUploadModuleNamedExport]

/-- C6 witness: concrete credentialed request with one complete file
reference still answers 500. -/
theorem c6_processing_path_returns_500_witness :
    (sharePointUploadEndpoint envSharePoint wAllOk
      { files := some [{ siteId := some "site1", driveId := some "drive1"
                         itemId := some "item1", fileName := some "doc.txt" }] }).1.status
      = 500
    ∧ (sharePointUploadEndpoint envSharePoint wAllOk
        { files := some [{ siteId := some "site1", driveId := some "drive1"
                           itemId := some "item1", fileName := some "doc.txt" }] }).2
      = [] := by
  have h := c6_processing_path_returns_500 envSharePoint wAllOk
    { files := some [{ siteId := some "site1", driveId := some "drive1"
                       itemId := some "item1", fileName := some "doc.txt" }] }
    [{ siteId := some "site1", driveId := some "drive1"
       itemId := some "item1", fileName := some "doc.txt" }]
    rfl rfl rfl (by simp)
  exact ⟨h.1, h.2.2⟩

/-- C7: two consecutive `uploadFile` calls with identical content and file
name draw their names from distinct positions of the uuid stream, so as long
as the stream is collision-free (the contract of uuidv4) the two generated
names are distinct. -/
theorem c7_repeated_store_generates_distinct_names (h : FileUploadHandler)
    (w : World) (ctr : Nat) (content name : String) (r1 r2 : StorageResult)
    (hinj : Function.Injective w.uuid)
    (h1 : (h.uploadFile w ctr content name).1 = Except.ok r1)
    (h2 : (h.uploadFile w ((h.uploadFile w ctr content name).2.1) content
        name).1 = Except.ok r2) :
    generatedName r1 ≠ generatedName r2 := by
  obtain ⟨k1, hk1, hc1, hg1⟩ := uploadFile_ok_generatedName h w ctr content name r1 h1
  obtain ⟨k2, hk2, hc2, hg2⟩ := uploadFile_ok_generatedName h w
    ((h.uploadFile w ctr content name).2.1) content name r2 h2
  rw [hg1, hg2]
  rw [hc1] at hk2
  intro heq
  injection heq with heq2
  have h3 := string_append_cancel_right _ _ name heq2
  have h4 := string_append_cancel_right _ _ "-" h3
  have h5 := hinj h4
  omega

/-- C7 witness: two consecutive local stores of the same payload under the
collision-free concrete uuid stream produce the names u-f.txt and uu-f.txt. -/
theorem c7_repeated_store_generates_distinct_names_witness :
    generatedName { success := true, storage := some "local", url := none
                    blobName := none, localPath := some "uploads/u-f.txt"
                    fileName := some "u-f.txt" }
      ≠ generatedName { success := true, storage := some "local", url := none
                        blobName := none, localPath := some "uploads/uu-f.txt"
                        fileName := some "uu-f.txt" } := by
  have hinj : Function.Injective wAllOk.uuid := by
    intro i j hij
    have h2 : (List.replicate (i + 1) 'u').length = (List.replicate (j + 1) 'u').length :=
      congrArg (fun s => s.data.length) hij
    simpa using h2
  exact c7_repeated_store_generates_distinct_names
    (FileUploadHandler.ofEnv envLocalOnly) wAllOk 0 "x" "f.txt" _ _ hinj rfl rfl

/-- C8: a returned result reports storage blob only when the connection
string was configured and both remote steps — container creation and the
blob write — actually succeeded; the result then carries the remote URL and
the generated blob name. -/
theorem c8_blob_only_after_successful_remote_write (h : FileUploadHandler)
    (w : World) (ctr : Nat) (content name : String) (r : StorageResult)
    (hok : (h.uploadFile w ctr content name).1 = Except.ok r)
    (hblob : r.storage = some "blob") :
    truthy h.connectionString = true
    ∧ w.blobCreateContainer (getStr h.connectionString) "uploads" = Except.ok ()
    ∧ ∃ url, w.blobUpload (w.uuid ctr ++ "-" ++ name) content = Except.ok url
        ∧ r.url = some url ∧ r.blobName = some (w.uuid ctr ++ "-" ++ name) := by
  cases hc : truthy h.connectionString
  case false =>
    rw [uploadFile_eq_noconn h w ctr content name hc] at hok
    obtain ⟨_, hs2, _, _⟩ := saveToLocal_ok h w ctr content name r hok
    rw [hs2] at hblob
    simp at hblob
  case true =>
    cases hcc : w.blobCreateContainer (getStr h.connectionString) "uploads"
    case error e =>
      rw [uploadFile_eq_blob_err h w ctr content name e ctr
            [Event.blobCreateContainerCall "uploads"] hc
            (uploadToBlob_eq_container_err h w ctr content name e hcc)] at hok
      obtain ⟨_, hs2, _, _⟩ := saveToLocal_ok h w ctr content name r hok
      rw [hs2] at hblob
      simp at hblob
    case ok u =>
      cases u
      cases hup : w.blobUpload (w.uuid ctr ++ "-" ++ name) content
      case error e =>
        rw [uploadFile_eq_blob_err h w ctr content name e (ctr + 1)
              [Event.blobCreateContainerCall "uploads",
               Event.blobUploadCall (w.uuid ctr ++ "-" ++ name)] hc
              (uploadToBlob_eq_upload_err h w ctr content name e hcc hup)] at hok
        obtain ⟨_, hs2, _, _⟩ := saveToLocal_ok h w (ctr + 1) content name r hok
        rw [hs2] at hblob
        simp at hblob
      case ok url =>
        rw [uploadFile_eq_blob_ok h w ctr content name _ (ctr + 1)
              [Event.blobCreateContainerCall "uploads",
               Event.blobUploadCall (w.uuid ctr ++ "-" ++ name)] hc
              (uploadToBlob_eq_ok h w ctr content name url hcc hup)] at hok
        simp at hok
        subst hok
        exact ⟨rfl, rfl, url, rfl, rfl, rfl⟩

/-- C8 witness: concrete configured blob store where the remote write
succeeds and the returned blob result records its URL and blob name. -/
theorem c8_blob_only_after_successful_remote_write_witness :
    truthy (FileUploadHandler.ofEnv envBlob).connectionString = true
    ∧ wAllOk.blobCreateContainer
        (getStr (FileUploadHandler.ofEnv envBlob).connectionString) "uploads"
      = Except.ok ()
    ∧ ∃ url, wAllOk.blobUpload (wAllOk.uuid 0 ++ "-" ++ "f.txt") "x" = Except.ok url
        ∧ ({ success := true, storage := some "blob"
             url := some "https://example.test/blob"
             blobName := some "u-f.txt", localPath := none
             fileName := none } : StorageResult).url = some url
        ∧ ({ success := true, storage := some "blob"
             url := some "https://example.test/blob"
             blobName := some "u-f.txt", localPath := none
             fileName := none } : StorageResult).blobName
          = some (wAllOk.uuid 0 ++ "-" ++ "f.txt") :=
  c8_blob_only_after_successful_remote_write (FileUploadHandler.ofEnv envBlob) wAllOk
    0 "x" "f.txt"
    { success := true, storage := some "blob"
      url := some "https://example.test/blob"
      blobName := some "u-f.txt", localPath := none, fileName := none }
    rfl rfl

/-- C9: a SharePoint batch unit missing any required field yields a per-unit
failure entry carrying the missing-information error, makes no external call
at all (in particular no fetch), and leaves the uuid counter unchanged. -/
theorem c9_missing_field_yields_unit_failure_without_fetch
    (sp : SharePointHandler) (h : FileUploadHandler) (w : World) (ctr : Nat)
    (file : SharePointFileRef)
    (hmiss : (truthy file.siteId && truthy file.driveId && truthy file.itemId
        && truthy file.fileName) = false) :
    (processOneSharePointFile sp h w ctr file).1.success = false
    ∧ (processOneSharePointFile sp h w ctr file).1.error
        = some "Missing required SharePoint file information"
    ∧ (processOneSharePointFile sp h w ctr file).2.2 = []
    ∧ (processOneSharePointFile sp h w ctr file).2.1 = ctr := by
  refine ⟨?_, ?_, ?_, ?_⟩ <;> simp [processOneSharePointFile, hmiss]

/-- C9 witness: concrete unit with a missing itemId. -/
theorem c9_missing_field_yields_unit_failure_without_fetch_witness :
    (processOneSharePointFile (SharePointHandler.ofEnv envSharePoint)
      (FileUploadHandler.ofEnv envSharePoint) wAllOk 0
      { siteId := some "site1", driveId := some "drive1", itemId := none
        fileName := some "doc.txt" }).1.success = false
    ∧ (processOneSharePointFile (SharePointHandler.ofEnv envSharePoint)
        (FileUploadHandler.ofEnv envSharePoint) wAllOk 0
        { siteId := some "site1", driveId := some "drive1", itemId := none
          fileName := some "doc.txt" }).1.error
      = some "Missing required SharePoint file information"
    ∧ (processOneSharePointFile (SharePointHandler.ofEnv envSharePoint)
        (FileUploadHandler.ofEnv envSharePoint) wAllOk 0
        { siteId := some "site1", driveId := some "drive1", itemId := none
          fileName := some "doc.txt" }).2.2 = [] := by
  have h := c9_missing_field_yields_unit_failure_without_fetch
    (SharePointHandler.ofEnv envSharePoint) (FileUploadHandler.ofEnv envSharePoint)
    wAllOk 0
    { siteId := some "site1", driveId := some "drive1", itemId := none
      fileName := some "doc.txt" } rfl
  exact ⟨h.1, h.2.1, h.2.2.1⟩

/-- C10: with the SharePoint credentials entirely absent the endpoint answers
200 flagged as mock mode, without any error and without any external call;
the Source Resolver is never initialized, and any fetch through it fails
immediately with the not-initialized error and no network call. -/
theorem c10_absent_credentials_mock_mode (env : Env) (w : World)
    (req : SharePointRequest)
    (hid : env.sharepointClientId = none)
    (hsec : env.sharepointClientSecret = none)
    (hten : env.sharepointTenantId = none) :
    (sharePointUploadEndpoint env w req).1.status = 200
    ∧ (sharePointUploadEndpoint env w req).1.mockMode = true
    ∧ (sharePointUploadEndpoint env w req).1.error = none
    ∧ (sharePointUploadEndpoint env w req).2 = []
    ∧ (SharePointHandler.ofEnv env).hasClient = false
    ∧ ∀ s d i, (SharePointHandler.ofEnv env).getFileFromSharePoint w s d i
        = (Except.error "SharePoint client not initialized - missing credentials",
           []) := by
  refine ⟨?_, ?_, ?_, ?_, ?_, fun s d i => ?_⟩ <;>
    simp [sharePointUploadEndpoint, SharePointHandler.ofEnv,
      SharePointHandler.getFileFromSharePoint, hid, hsec, hten, truthy]

/-- C10 witness: concrete unconfigured environment. -/
theorem c10_absent_credentials_mock_mode_witness :
    (sharePointUploadEndpoint envLocalOnly wAllOk { files := none }).1.status = 200
    ∧ (sharePointUploadEndpoint envLocalOnly wAllOk { files := none }).1.mockMode
        = true
    ∧ (sharePointUploadEndpoint envLocalOnly wAllOk { files := none }).2 = []
    ∧ (SharePointHandler.ofEnv envLocalOnly).getFileFromSharePoint wAllOk "s" "d" "i"
      = (Except.error "SharePoint client not initialized - missing credentials",
         []) := by
  have h := c10_absent_credentials_mock_mode envLocalOnly wAllOk { files := none }
    rfl rfl rfl
  exact ⟨h.1, h.2.1, h.2.2.2.1, h.2.2.2.2.2 "s" "d" "i"⟩

end UploadFn
